import Mathlib

set_option autoImplicit false

/-
Shallow embedding of the reading-stabilization ("debounce") filters of the
apptech repository.

Two variants exist in the source:

* `ReadingDebouncer<T>` (src/instruments/pulse_oximeter/include/reading_debouncer.h),
  a generic debouncer with an inclusive valid-range gate.  We embed its
  instantiation at `T = int`; readings are modelled as unbounded `Int`
  (signed overflow in the C++ subtraction is undefined behaviour and all
  claims concern in-range values), while `unsigned long` timestamps are
  modelled as `Nat` with explicit wrap-around arithmetic modulo `2 ^ 32`.

* `HeightDebouncer` (src/instruments/height_meter/src/height_meter.cpp and
  src/include/height_debouncer.h), a hand-specialized integer debouncer
  without the range gate, using `-1` as its sentinel value.
-/

namespace Apptech

/-- Width of the Arduino `unsigned long` type: 32 bits on both the AVR and
the ESP targets used by the sketches. -/
def ulongW : Nat := 2 ^ 32

/-- C++ subtraction `a - b` on `unsigned long` operands: the result wraps
modulo `ulongW`.  The left operand is assumed already reduced (state fields
and reduced call arguments); the right operand is reduced defensively. -/
def usub (a b : Nat) : Nat := (a + (ulongW - b % ulongW)) % ulongW

theorem ulongW_pos : 0 < ulongW := by decide

/-- On non-wrapping inputs, the unsigned subtraction is ordinary truncated
subtraction. -/
theorem usub_eq_sub {a b : Nat} (hba : b ≤ a) (ha : a < ulongW) :
    usub a b = a - b := by
  have hb : b < ulongW := lt_of_le_of_lt hba ha
  have hbW : b ≤ ulongW := le_of_lt hb
  unfold usub
  rw [Nat.mod_eq_of_lt hb]
  have h1 : a + (ulongW - b) = a - b + ulongW := by omega
  rw [h1, Nat.add_mod_right, Nat.mod_eq_of_lt (by omega)]

/-! ## The generic `ReadingDebouncer`, instantiated at `int` -/

/-- Configuration of `ReadingDebouncer<int>`, fixed at construction. -/
structure RDConfig where
  tolerance : Int
  stabilityDurationMs : Nat
  sampleIntervalMs : Nat
  minValid : Int
  maxValid : Int
  deriving Repr, DecidableEq

/-- Mutable state of `ReadingDebouncer<int>`. -/
structure RDState where
  lastReading : Int
  stableReading : Int
  stabilityStartTime : Nat
  lastSampleTime : Nat
  isStable : Bool
  hasReading : Bool
  lastReadingValid : Bool
  deriving Repr, DecidableEq

namespace ReadingDebouncer

/-- State established by the constructor: `lastReading_(T())`,
`stableReading_(T())`, zero timers, all flags false (`T() = 0` at `int`). -/
def initial : RDState :=
  { lastReading := 0
    stableReading := 0
    stabilityStartTime := 0
    lastSampleTime := 0
    isStable := false
    hasReading := false
    lastReadingValid := false }

/-- State after `reset()`: every mutable field is assigned its initial
value, including `lastSampleTime_ = 0` and `lastReadingValid_ = false`. -/
def resetState : RDState :=
  { lastReading := 0
    stableReading := 0
    stabilityStartTime := 0
    lastSampleTime := 0
    isStable := false
    hasReading := false
    lastReadingValid := false }

/-- Embedding of `isValidReading`: `reading >= minValid_ && reading <= maxValid_`. -/
def isValidReading (cfg : RDConfig) (reading : Int) : Bool :=
  reading ≥ cfg.minValid && reading ≤ cfg.maxValid

/-- Embedding of `isWithinTolerance`: `T diff = reading1 - reading2;
if (diff < T()) diff = -diff; return diff <= tolerance_;`. -/
def isWithinTolerance (cfg : RDConfig) (reading1 reading2 : Int) : Bool :=
  let diff := reading1 - reading2
  let diff := if diff < 0 then -diff else diff
  diff ≤ cfg.tolerance

/-- Body of `update` after the sample-interval gate, taking the already
reduced timestamp `tm`.  Mirrors the source line by line: record
`lastSampleTime_`, record validity, reset on invalid, bootstrap on the
first reading, otherwise compare against tolerance. -/
def processSample (cfg : RDConfig) (s : RDState) (currentReading : Int)
    (tm : Nat) : RDState :=
  let s1 : RDState := { s with lastSampleTime := tm }
  let isValid := isValidReading cfg currentReading
  let s2 : RDState := { s1 with lastReadingValid := isValid }
  if !isValid then
    resetState
  else if !s2.hasReading then
    { s2 with lastReading := currentReading, stabilityStartTime := tm,
              hasReading := true, isStable := false }
  else
    let s3 : RDState :=
      if isWithinTolerance cfg currentReading s2.lastReading then
        if usub tm s2.stabilityStartTime ≥ cfg.stabilityDurationMs then
          { s2 with isStable := true, stableReading := currentReading }
        else s2
      else
        { s2 with stabilityStartTime := tm, isStable := false }
    { s3 with lastReading := currentReading }

/-- Embedding of `ReadingDebouncer::update`.  The C++ call receives the
timestamp as `unsigned long`, hence the reduction modulo `ulongW`; the
sample-interval gate returns with the state untouched. -/
def update (cfg : RDConfig) (s : RDState) (currentReading : Int)
    (currentTimeMs : Nat) : RDState :=
  let tm := currentTimeMs % ulongW
  if s.hasReading && usub tm s.lastSampleTime < cfg.sampleIntervalMs then
    s
  else
    processSample cfg s currentReading tm

/-- Accessor `getStableReading`: the stable value, or `T()` (= 0 at `int`)
when not stable. -/
def getStableReading (s : RDState) : Int :=
  if s.isStable then s.stableReading else 0

/-- Accessor `getLastReading`. -/
def getLastReading (s : RDState) : Int := s.lastReading

/-- Accessor `isLastReadingValid`. -/
def isLastReadingValid (s : RDState) : Bool := s.lastReadingValid

/-- Accessor `hasValidReading`: returns the `hasReading_` flag. -/
def hasValidReading (s : RDState) : Bool := s.hasReading

/-- Feeding a list of `(reading, timestamp)` samples in order. -/
def feed (cfg : RDConfig) (s : RDState) (samples : List (Int × Nat)) : RDState :=
  samples.foldl (fun acc p => update cfg acc p.1 p.2) s

end ReadingDebouncer

/-! ## The hand-specialized `HeightDebouncer` -/

/-- Configuration of `HeightDebouncer`, fixed at construction. -/
structure HDConfig where
  toleranceCm : Int
  stabilityDurationMs : Nat
  sampleIntervalMs : Nat
  deriving Repr, DecidableEq

/-- Mutable state of `HeightDebouncer` (no validity flag, no range). -/
structure HDState where
  lastReading : Int
  stableReading : Int
  stabilityStartTime : Nat
  lastSampleTime : Nat
  isStable : Bool
  hasReading : Bool
  deriving Repr, DecidableEq

namespace HeightDebouncer

/-- State established by the constructor: `lastReading_(-1)`,
`stableReading_(-1)`, zero timers, flags false. -/
def initial : HDState :=
  { lastReading := -1
    stableReading := -1
    stabilityStartTime := 0
    lastSampleTime := 0
    isStable := false
    hasReading := false }

/-- State after `reset()`. -/
def resetState : HDState :=
  { lastReading := -1
    stableReading := -1
    stabilityStartTime := 0
    lastSampleTime := 0
    isStable := false
    hasReading := false }

/-- Embedding of `isWithinTolerance`:
`std::abs(reading1 - reading2) <= toleranceCm_`. -/
def isWithinTolerance (cfg : HDConfig) (reading1 reading2 : Int) : Bool :=
  |reading1 - reading2| ≤ cfg.toleranceCm

/-- Body of `HeightDebouncer::update` after the sample-interval gate. -/
def processSample (cfg : HDConfig) (s : HDState) (currentReading : Int)
    (tm : Nat) : HDState :=
  let s1 : HDState := { s with lastSampleTime := tm }
  if !s1.hasReading then
    { s1 with lastReading := currentReading, stabilityStartTime := tm,
              hasReading := true, isStable := false }
  else
    let s2 : HDState :=
      if isWithinTolerance cfg currentReading s1.lastReading then
        if usub tm s1.stabilityStartTime ≥ cfg.stabilityDurationMs then
          { s1 with isStable := true, stableReading := currentReading }
        else s1
      else
        { s1 with stabilityStartTime := tm, isStable := false }
    { s2 with lastReading := currentReading }

/-- Embedding of `HeightDebouncer::update`. -/
def update (cfg : HDConfig) (s : HDState) (currentReading : Int)
    (currentTimeMs : Nat) : HDState :=
  let tm := currentTimeMs % ulongW
  if s.hasReading && usub tm s.lastSampleTime < cfg.sampleIntervalMs then
    s
  else
    processSample cfg s currentReading tm

/-- Accessor `getStableReading`: the stable value, or `-1` when not stable. -/
def getStableReading (s : HDState) : Int :=
  if s.isStable then s.stableReading else -1

/-- Accessor `getLastReading`. -/
def getLastReading (s : HDState) : Int := s.lastReading

/-- Feeding a list of `(reading, timestamp)` samples in order. -/
def feed (cfg : HDConfig) (s : HDState) (samples : List (Int × Nat)) : HDState :=
  samples.foldl (fun acc p => update cfg acc p.1 p.2) s

end HeightDebouncer

/-- States of `ReadingDebouncer<int>` reachable from the constructed state
by any sequence of `update` and `reset` calls. -/
inductive RDReachable (cfg : RDConfig) : RDState → Prop where
  | init : RDReachable cfg ReadingDebouncer.initial
  | step (s : RDState) (r : Int) (t : Nat) : RDReachable cfg s →
      RDReachable cfg (ReadingDebouncer.update cfg s r t)
  | reset (s : RDState) : RDReachable cfg s →
      RDReachable cfg ReadingDebouncer.resetState

/-- States of `HeightDebouncer` reachable from the constructed state by any
sequence of `update` and `reset` calls. -/
inductive HDReachable (cfg : HDConfig) : HDState → Prop where
  | init : HDReachable cfg HeightDebouncer.initial
  | step (s : HDState) (r : Int) (t : Nat) : HDReachable cfg s →
      HDReachable cfg (HeightDebouncer.update cfg s r t)
  | reset (s : HDState) : HDReachable cfg s →
      HDReachable cfg HeightDebouncer.resetState

/-- Correspondence between a `HeightDebouncer` state and a
`ReadingDebouncer<int>` state: the shared fields agree (the raw reading
only once one has been accepted, since the idle sentinels differ), and the
stored stable readings agree whenever the stable flag is set. -/
def SimR (h : HDState) (g : RDState) : Prop :=
  (h.hasReading = true → h.lastReading = g.lastReading) ∧
  h.stabilityStartTime = g.stabilityStartTime ∧
  h.lastSampleTime = g.lastSampleTime ∧
  h.isStable = g.isStable ∧
  h.hasReading = g.hasReading ∧
  (h.isStable = true → h.stableReading = g.stableReading)

/-! ## Branch lemmas for `ReadingDebouncer::update` -/

namespace ReadingDebouncer

theorem update_gated_eq (cfg : RDConfig) (s : RDState) (r : Int) (t : Nat)
    (hr : s.hasReading = true)
    (hg : usub (t % ulongW) s.lastSampleTime < cfg.sampleIntervalMs) :
    update cfg s r t = s := by
  simp [update, hr, hg]

theorem update_not_gated_eq (cfg : RDConfig) (s : RDState) (r : Int) (t : Nat)
    (h : s.hasReading = false ∨
      ¬ usub (t % ulongW) s.lastSampleTime < cfg.sampleIntervalMs) :
    update cfg s r t = processSample cfg s r (t % ulongW) := by
  rcases h with h | h <;> simp [update, h]

theorem processSample_invalid_eq (cfg : RDConfig) (s : RDState) (r : Int) (tm : Nat)
    (hv : isValidReading cfg r = false) :
    processSample cfg s r tm = resetState := by
  simp [processSample, hv]

theorem processSample_first_eq (cfg : RDConfig) (s : RDState) (r : Int) (tm : Nat)
    (hv : isValidReading cfg r = true) (hr : s.hasReading = false) :
    processSample cfg s r tm =
      { lastReading := r, stableReading := s.stableReading,
        stabilityStartTime := tm, lastSampleTime := tm,
        isStable := false, hasReading := true, lastReadingValid := true } := by
  simp [processSample, hv, hr]

theorem processSample_within_stable_eq (cfg : RDConfig) (s : RDState) (r : Int)
    (tm : Nat) (hv : isValidReading cfg r = true) (hr : s.hasReading = true)
    (hw : isWithinTolerance cfg r s.lastReading = true)
    (hd : usub tm s.stabilityStartTime ≥ cfg.stabilityDurationMs) :
    processSample cfg s r tm =
      { lastReading := r, stableReading := r,
        stabilityStartTime := s.stabilityStartTime, lastSampleTime := tm,
        isStable := true, hasReading := true, lastReadingValid := true } := by
  simp [processSample, hv, hr, hw, hd]

theorem processSample_within_early_eq (cfg : RDConfig) (s : RDState) (r : Int)
    (tm : Nat) (hv : isValidReading cfg r = true) (hr : s.hasReading = true)
    (hw : isWithinTolerance cfg r s.lastReading = true)
    (hd : ¬ usub tm s.stabilityStartTime ≥ cfg.stabilityDurationMs) :
    processSample cfg s r tm =
      { lastReading := r, stableReading := s.stableReading,
        stabilityStartTime := s.stabilityStartTime, lastSampleTime := tm,
        isStable := s.isStable, hasReading := true,
        lastReadingValid := true } := by
  simp [processSample, hv, hr, hw, hd]

theorem processSample_break_eq (cfg : RDConfig) (s : RDState) (r : Int) (tm : Nat)
    (hv : isValidReading cfg r = true) (hr : s.hasReading = true)
    (hw : isWithinTolerance cfg r s.lastReading = false) :
    processSample cfg s r tm =
      { lastReading := r, stableReading := s.stableReading,
        stabilityStartTime := tm, lastSampleTime := tm,
        isStable := false, hasReading := true, lastReadingValid := true } := by
  simp [processSample, hv, hr, hw]

end ReadingDebouncer

/-! ## Branch lemmas for `HeightDebouncer::update` -/

namespace HeightDebouncer

theorem update_gated_hd (cfg : HDConfig) (s : HDState) (r : Int) (t : Nat)
    (hr : s.hasReading = true)
    (hg : usub (t % ulongW) s.lastSampleTime < cfg.sampleIntervalMs) :
    update cfg s r t = s := by
  simp [update, hr, hg]

theorem update_not_gated_hd (cfg : HDConfig) (s : HDState) (r : Int) (t : Nat)
    (h : s.hasReading = false ∨
      ¬ usub (t % ulongW) s.lastSampleTime < cfg.sampleIntervalMs) :
    update cfg s r t = processSample cfg s r (t % ulongW) := by
  rcases h with h | h <;> simp [update, h]

theorem processSample_first_hd (cfg : HDConfig) (s : HDState) (r : Int) (tm : Nat)
    (hr : s.hasReading = false) :
    processSample cfg s r tm =
      { lastReading := r, stableReading := s.stableReading,
        stabilityStartTime := tm, lastSampleTime := tm,
        isStable := false, hasReading := true } := by
  simp [processSample, hr]

theorem processSample_within_stable_hd (cfg : HDConfig) (s : HDState) (r : Int)
    (tm : Nat) (hr : s.hasReading = true)
    (hw : isWithinTolerance cfg r s.lastReading = true)
    (hd : usub tm s.stabilityStartTime ≥ cfg.stabilityDurationMs) :
    processSample cfg s r tm =
      { lastReading := r, stableReading := r,
        stabilityStartTime := s.stabilityStartTime, lastSampleTime := tm,
        isStable := true, hasReading := true } := by
  simp [processSample, hr, hw, hd]

theorem processSample_within_early_hd (cfg : HDConfig) (s : HDState) (r : Int)
    (tm : Nat) (hr : s.hasReading = true)
    (hw : isWithinTolerance cfg r s.lastReading = true)
    (hd : ¬ usub tm s.stabilityStartTime ≥ cfg.stabilityDurationMs) :
    processSample cfg s r tm =
      { lastReading := r, stableReading := s.stableReading,
        stabilityStartTime := s.stabilityStartTime, lastSampleTime := tm,
        isStable := s.isStable, hasReading := true } := by
  simp [processSample, hr, hw, hd]

theorem processSample_break_hd (cfg : HDConfig) (s : HDState) (r : Int) (tm : Nat)
    (hr : s.hasReading = true)
    (hw : isWithinTolerance cfg r s.lastReading = false) :
    processSample cfg s r tm =
      { lastReading := r, stableReading := s.stableReading,
        stabilityStartTime := tm, lastSampleTime := tm,
        isStable := false, hasReading := true } := by
  simp [processSample, hr, hw]

end HeightDebouncer

/-! ## Tolerance characterizations -/

/-- The manual sign flip in the template computes the absolute difference. -/
theorem rd_within_iff_abs (cfg : RDConfig) (a b : Int) :
    ReadingDebouncer.isWithinTolerance cfg a b
      = decide (|a - b| ≤ cfg.tolerance) := by
  unfold ReadingDebouncer.isWithinTolerance
  rcases lt_or_le (a - b) 0 with h | h
  · simp only [if_pos h, abs_of_neg h]
  · simp only [if_neg (not_lt.mpr h), abs_of_nonneg h]

/-- The two variants decide the tolerance test identically when configured
with the same tolerance. -/
theorem within_agree (cfg : RDConfig) (hcfg : HDConfig)
    (htol : hcfg.toleranceCm = cfg.tolerance) (a b : Int) :
    HeightDebouncer.isWithinTolerance hcfg a b
      = ReadingDebouncer.isWithinTolerance cfg a b := by
  rw [rd_within_iff_abs]
  unfold HeightDebouncer.isWithinTolerance
  rw [htol]

/-! ## Run evolution of the generic debouncer under within-tolerance
readings -/

/-- One accepted within-tolerance step: from a state with window start
`t0`, an update with a reading within tolerance of the held one at time
`t` (past the interval gate, no wrap) keeps the window start and turns the
stable flag on exactly when `stabilityDuration` has elapsed since `t0`. -/
theorem rd_run_step (cfg : RDConfig) (s : RDState) (r : Int)
    (t0 tprev t : Nat)
    (hv : ReadingDebouncer.isValidReading cfg r = true)
    (hw : ReadingDebouncer.isWithinTolerance cfg r s.lastReading = true)
    (h2 : s.stabilityStartTime = t0)
    (h3 : s.lastSampleTime = tprev) (h4 : s.hasReading = true)
    (hle : t0 ≤ tprev) (hsp : tprev + cfg.sampleIntervalMs ≤ t)
    (htW : t < ulongW) :
    ReadingDebouncer.update cfg s r t =
      { lastReading := r,
        stableReading :=
          if cfg.stabilityDurationMs ≤ t - t0 then r else s.stableReading,
        stabilityStartTime := t0, lastSampleTime := t,
        isStable :=
          if cfg.stabilityDurationMs ≤ t - t0 then true else s.isStable,
        hasReading := true, lastReadingValid := true } := by
  have htprev : tprev ≤ t := le_trans (Nat.le_add_right _ _) hsp
  have htm : t % ulongW = t := Nat.mod_eq_of_lt htW
  have hgate : ¬ usub (t % ulongW) s.lastSampleTime < cfg.sampleIntervalMs := by
    rw [htm, h3, usub_eq_sub htprev htW]
    omega
  rw [ReadingDebouncer.update_not_gated_eq cfg s r t (Or.inr hgate), htm]
  have hus : usub t s.stabilityStartTime = t - t0 := by
    rw [h2, usub_eq_sub (le_trans hle htprev) htW]
  by_cases hd : cfg.stabilityDurationMs ≤ t - t0
  · rw [ReadingDebouncer.processSample_within_stable_eq cfg s r t hv h4 hw
      (by rw [hus]; exact hd)]
    simp [h2, hd]
  · rw [ReadingDebouncer.processSample_within_early_eq cfg s r t hv h4 hw
      (by rw [hus]; exact hd)]
    simp [h2, hd]

/-- Run evolution: feeding valid samples, each within tolerance of its
predecessor, at spaced times ending at sample `pl`, from any state with
window start `t0` that last accepted sample `pv`, yields the stable flag
exactly when the final timestamp is `stabilityDuration` past `t0`, and in
that case the stored stable reading is the final (latest) reading of the
run. -/
theorem rd_tolerant_run (cfg : RDConfig) (t0 : Nat) :
    ∀ (ps : List (Int × Nat)) (pl : Int × Nat) (s : RDState)
      (pv : Int × Nat),
    s.lastReading = pv.1 → s.stabilityStartTime = t0 →
    s.lastSampleTime = pv.2 → s.hasReading = true →
    (s.isStable = true → cfg.stabilityDurationMs ≤ pv.2 - t0) →
    t0 ≤ pv.2 →
    (∀ p ∈ ps ++ [pl], ReadingDebouncer.isValidReading cfg p.1 = true) →
    List.Chain
      (fun a b : Int × Nat =>
        |b.1 - a.1| ≤ cfg.tolerance ∧ a.2 + cfg.sampleIntervalMs ≤ b.2)
      pv (ps ++ [pl]) →
    (∀ p ∈ ps ++ [pl], p.2 < ulongW) →
    (ReadingDebouncer.feed cfg s (ps ++ [pl])).isStable
        = decide (cfg.stabilityDurationMs ≤ pl.2 - t0) ∧
    ((ReadingDebouncer.feed cfg s (ps ++ [pl])).isStable = true →
      (ReadingDebouncer.feed cfg s (ps ++ [pl])).stableReading = pl.1) := by
  intro ps
  induction ps with
  | nil =>
    intro pl s pv h1 h2 h3 h4 hinv hle hvalid hchain hW
    have hrel : |pl.1 - pv.1| ≤ cfg.tolerance ∧
        pv.2 + cfg.sampleIntervalMs ≤ pl.2 := by
      simpa using hchain
    have hvl : ReadingDebouncer.isValidReading cfg pl.1 = true :=
      hvalid pl (by simp)
    have hw : ReadingDebouncer.isWithinTolerance cfg pl.1 s.lastReading
        = true := by
      rw [rd_within_iff_abs, h1]
      simpa using hrel.1
    have htW : pl.2 < ulongW := hW pl (by simp)
    have hstep := rd_run_step cfg s pl.1 t0 pv.2 pl.2 hvl hw h2 h3 h4 hle
      hrel.2 htW
    simp only [List.nil_append, ReadingDebouncer.feed, List.foldl_cons,
      List.foldl_nil]
    rw [hstep]
    by_cases hd : cfg.stabilityDurationMs ≤ pl.2 - t0
    · simp [hd]
    · constructor
      · simp only [if_neg hd]
        have hsf : s.isStable = false := by
          cases hs : s.isStable
          · rfl
          · exact absurd (hinv hs) (by omega)
        simp [hsf, hd]
      · intro hst
        simp only [if_neg hd] at hst
        exact absurd (hinv hst) (by omega)
  | cons p ps ih =>
    intro pl s pv h1 h2 h3 h4 hinv hle hvalid hchain hW
    have hchain2 : (|p.1 - pv.1| ≤ cfg.tolerance ∧
          pv.2 + cfg.sampleIntervalMs ≤ p.2) ∧
        List.Chain
          (fun a b : Int × Nat =>
            |b.1 - a.1| ≤ cfg.tolerance ∧ a.2 + cfg.sampleIntervalMs ≤ b.2)
          p (ps ++ [pl]) := by
      simpa using hchain
    have hvp : ReadingDebouncer.isValidReading cfg p.1 = true :=
      hvalid p (by simp)
    have hw : ReadingDebouncer.isWithinTolerance cfg p.1 s.lastReading
        = true := by
      rw [rd_within_iff_abs, h1]
      simpa using hchain2.1.1
    have htW : p.2 < ulongW := hW p (by simp)
    have htprev : pv.2 ≤ p.2 := le_trans (Nat.le_add_right _ _) hchain2.1.2
    have hstep := rd_run_step cfg s p.1 t0 pv.2 p.2 hvp hw h2 h3 h4 hle
      hchain2.1.2 htW
    have hfeed : ReadingDebouncer.feed cfg s ((p :: ps) ++ [pl])
        = ReadingDebouncer.feed cfg (ReadingDebouncer.update cfg s p.1 p.2)
            (ps ++ [pl]) := by
      simp [ReadingDebouncer.feed]
    rw [hfeed, hstep]
    refine ih pl _ p rfl rfl rfl rfl ?_ (le_trans hle htprev) ?_
      hchain2.2 ?_
    · intro hst
      by_cases hd : cfg.stabilityDurationMs ≤ p.2 - t0
      · exact hd
      · simp only [if_neg hd] at hst
        exact absurd (hinv hst) (by omega)
    · intro x hx
      exact hvalid x (by simp [hx])
    · intro x hx
      exact hW x (by simp [hx])

/-! ## Preservation of the `hasReading` flag -/

theorem rd_processSample_hasReading (cfg : RDConfig) (s : RDState) (r : Int)
    (tm : Nat) (hv : ReadingDebouncer.isValidReading cfg r = true) :
    (ReadingDebouncer.processSample cfg s r tm).hasReading = true := by
  by_cases hr : s.hasReading = true
  · by_cases hw : ReadingDebouncer.isWithinTolerance cfg r s.lastReading = true
    · by_cases hd : usub tm s.stabilityStartTime ≥ cfg.stabilityDurationMs
      · rw [ReadingDebouncer.processSample_within_stable_eq cfg s r tm hv hr hw hd]
      · rw [ReadingDebouncer.processSample_within_early_eq cfg s r tm hv hr hw hd]
    · rw [ReadingDebouncer.processSample_break_eq cfg s r tm hv hr
        (by simpa using hw)]
  · rw [ReadingDebouncer.processSample_first_eq cfg s r tm hv (by simpa using hr)]

theorem rd_update_hasReading (cfg : RDConfig) (s : RDState) (r : Int) (t : Nat)
    (hv : ReadingDebouncer.isValidReading cfg r = true) :
    (ReadingDebouncer.update cfg s r t).hasReading = true := by
  by_cases hr : s.hasReading = true
  · by_cases hg : usub (t % ulongW) s.lastSampleTime < cfg.sampleIntervalMs
    · rw [ReadingDebouncer.update_gated_eq cfg s r t hr hg]; exact hr
    · rw [ReadingDebouncer.update_not_gated_eq cfg s r t (Or.inr hg)]
      exact rd_processSample_hasReading cfg s r _ hv
  · rw [ReadingDebouncer.update_not_gated_eq cfg s r t (Or.inl (by simpa using hr))]
    exact rd_processSample_hasReading cfg s r _ hv

theorem rd_feed_hasReading (cfg : RDConfig) :
    ∀ (samples : List (Int × Nat)) (s : RDState), samples ≠ [] →
    (∀ p ∈ samples, ReadingDebouncer.isValidReading cfg p.1 = true) →
    (ReadingDebouncer.feed cfg s samples).hasReading = true := by
  intro samples
  induction samples with
  | nil => intro s hne; exact absurd rfl hne
  | cons p ps ih =>
    intro s _ hvalid
    cases ps with
    | nil =>
      simpa [ReadingDebouncer.feed] using
        rd_update_hasReading cfg s p.1 p.2 (hvalid p (by simp))
    | cons q qs =>
      have hfeed : ReadingDebouncer.feed cfg s (p :: q :: qs)
          = ReadingDebouncer.feed cfg
              (ReadingDebouncer.update cfg s p.1 p.2) (q :: qs) := by
        simp [ReadingDebouncer.feed]
      rw [hfeed]
      exact ih _ (by simp) (fun x hx => hvalid x (by simp [hx]))

/-! ## Simulation between the two variants -/

/-- The correspondence holds between the two freshly constructed states. -/
theorem sim_initial : SimR HeightDebouncer.initial ReadingDebouncer.initial := by
  refine ⟨?_, rfl, rfl, rfl, rfl, ?_⟩ <;>
    simp [HeightDebouncer.initial, ReadingDebouncer.initial]

/-- One `update` call with an in-range reading preserves the correspondence
when the two filters share tolerance, stability duration and sample
interval. -/
theorem sim_step (cfg : RDConfig) (hcfg : HDConfig)
    (htol : hcfg.toleranceCm = cfg.tolerance)
    (hD : hcfg.stabilityDurationMs = cfg.stabilityDurationMs)
    (hI : hcfg.sampleIntervalMs = cfg.sampleIntervalMs)
    (h : HDState) (g : RDState) (hs : SimR h g) (r : Int) (t : Nat)
    (hv : ReadingDebouncer.isValidReading cfg r = true) :
    SimR (HeightDebouncer.update hcfg h r t)
      (ReadingDebouncer.update cfg g r t) := by
  obtain ⟨s1, s2, s3, s4, s5, s6⟩ := hs
  by_cases hr : h.hasReading = true
  · have hgr : g.hasReading = true := s5 ▸ hr
    by_cases hg : usub (t % ulongW) h.lastSampleTime < hcfg.sampleIntervalMs
    · have hgg : usub (t % ulongW) g.lastSampleTime < cfg.sampleIntervalMs := by
        rw [← s3, ← hI]; exact hg
      rw [HeightDebouncer.update_gated_hd hcfg h r t hr hg,
        ReadingDebouncer.update_gated_eq cfg g r t hgr hgg]
      exact ⟨s1, s2, s3, s4, s5, s6⟩
    · have hgg : ¬ usub (t % ulongW) g.lastSampleTime < cfg.sampleIntervalMs := by
        rw [← s3, ← hI]; exact hg
      rw [HeightDebouncer.update_not_gated_hd hcfg h r t (Or.inr hg),
        ReadingDebouncer.update_not_gated_eq cfg g r t (Or.inr hgg)]
      have hwag : HeightDebouncer.isWithinTolerance hcfg r h.lastReading
          = ReadingDebouncer.isWithinTolerance cfg r g.lastReading := by
        rw [within_agree cfg hcfg htol, s1 hr]
      by_cases hw : ReadingDebouncer.isWithinTolerance cfg r g.lastReading = true
      · by_cases hd :
            usub (t % ulongW) g.stabilityStartTime ≥ cfg.stabilityDurationMs
        · rw [HeightDebouncer.processSample_within_stable_hd hcfg h r _ hr
            (hwag.trans hw) (by rw [s2, hD]; exact hd),
            ReadingDebouncer.processSample_within_stable_eq cfg g r _ hv hgr hw hd]
          exact ⟨fun _ => rfl, s2, rfl, rfl, rfl, fun _ => rfl⟩
        · rw [HeightDebouncer.processSample_within_early_hd hcfg h r _ hr
            (hwag.trans hw) (by rw [s2, hD]; exact hd),
            ReadingDebouncer.processSample_within_early_eq cfg g r _ hv hgr hw hd]
          exact ⟨fun _ => rfl, s2, rfl, s4, rfl, s6⟩
      · have hw2 : ReadingDebouncer.isWithinTolerance cfg r g.lastReading
            = false := by simpa using hw
        rw [HeightDebouncer.processSample_break_hd hcfg h r _ hr
            (hwag.trans hw2),
          ReadingDebouncer.processSample_break_eq cfg g r _ hv hgr hw2]
        exact ⟨fun _ => rfl, rfl, rfl, rfl, rfl, fun hc => by cases hc⟩
  · have hrf : h.hasReading = false := by simpa using hr
    have hgf : g.hasReading = false := s5 ▸ hrf
    rw [HeightDebouncer.update_not_gated_hd hcfg h r t (Or.inl hrf),
      ReadingDebouncer.update_not_gated_eq cfg g r t (Or.inl hgf),
      HeightDebouncer.processSample_first_hd hcfg h r _ hrf,
      ReadingDebouncer.processSample_first_eq cfg g r _ hv hgf]
    exact ⟨fun _ => rfl, rfl, rfl, rfl, rfl, fun hc => by cases hc⟩

/-- Feeding the same in-range sample stream to both variants preserves the
correspondence. -/
theorem sim_feed (cfg : RDConfig) (hcfg : HDConfig)
    (htol : hcfg.toleranceCm = cfg.tolerance)
    (hD : hcfg.stabilityDurationMs = cfg.stabilityDurationMs)
    (hI : hcfg.sampleIntervalMs = cfg.sampleIntervalMs) :
    ∀ (samples : List (Int × Nat)) (h : HDState) (g : RDState), SimR h g →
    (∀ p ∈ samples, ReadingDebouncer.isValidReading cfg p.1 = true) →
    SimR (HeightDebouncer.feed hcfg h samples)
      (ReadingDebouncer.feed cfg g samples) := by
  intro samples
  induction samples with
  | nil => intro h g hs _; exact hs
  | cons p ps ih =>
    intro h g hs hvalid
    have h1 : HeightDebouncer.feed hcfg h (p :: ps)
        = HeightDebouncer.feed hcfg (HeightDebouncer.update hcfg h p.1 p.2) ps := by
      simp [HeightDebouncer.feed]
    have h2 : ReadingDebouncer.feed cfg g (p :: ps)
        = ReadingDebouncer.feed cfg (ReadingDebouncer.update cfg g p.1 p.2) ps := by
      simp [ReadingDebouncer.feed]
    rw [h1, h2]
    exact ih _ _
      (sim_step cfg hcfg htol hD hI h g hs p.1 p.2 (hvalid p (by simp)))
      (fun x hx => hvalid x (by simp [hx]))

/-- Bootstrap call on the freshly constructed generic filter. -/
theorem rd_bootstrap (cfg : RDConfig) (r : Int) (t0 : Nat)
    (hv : ReadingDebouncer.isValidReading cfg r = true) (ht0 : t0 < ulongW) :
    ReadingDebouncer.update cfg ReadingDebouncer.initial r t0 =
      { lastReading := r, stableReading := 0, stabilityStartTime := t0,
        lastSampleTime := t0, isStable := false, hasReading := true,
        lastReadingValid := true } := by
  rw [ReadingDebouncer.update_not_gated_eq cfg _ r t0 (Or.inl rfl),
    ReadingDebouncer.processSample_first_eq cfg _ r _ hv rfl,
    Nat.mod_eq_of_lt ht0]
  rfl

/-- Bootstrap call on the freshly constructed integer filter. -/
theorem hd_bootstrap (cfg : HDConfig) (r : Int) (t0 : Nat) (ht0 : t0 < ulongW) :
    HeightDebouncer.update cfg HeightDebouncer.initial r t0 =
      { lastReading := r, stableReading := -1, stabilityStartTime := t0,
        lastSampleTime := t0, isStable := false, hasReading := true } := by
  rw [HeightDebouncer.update_not_gated_hd cfg _ r t0 (Or.inl rfl),
    HeightDebouncer.processSample_first_hd cfg _ r _ rfl,
    Nat.mod_eq_of_lt ht0]
  rfl

/-! ## Claim theorems -/

/-- Claim C1 (stability timing): for filters configured with stability
duration `D`, a stream of valid readings in which each reading is within
tolerance of the immediately preceding one (constant streams are the
special case of zero differences), fed at interval-spaced, non-decreasing,
non-wrapping timestamps `t0, …, tl` (all accepted), makes `isStable()`
after the final call hold exactly when `tl - t0 ≥ D`; the first call never
yields stability, and whenever stability holds the stable reading equals
the latest fed value.  Both variants behave identically here.
Instantiating the statement at every prefix of the stream shows that
`isStable()` first becomes true exactly at the first accepted call whose
timestamp minus the stability-window start reaches `D` and at no accepted
call before; the spec scenario (tolerance 2, stability 1000, interval 100,
constant reading 100 at t = 0, 200, …, 1000, first stable at t = 1000 with
stable reading 100) together with a non-constant pairwise
within-tolerance stream form the witness below. -/
theorem claim_C1_stability_timing (cfg : RDConfig) (hcfg : HDConfig)
    (htolc : hcfg.toleranceCm = cfg.tolerance)
    (hDc : hcfg.stabilityDurationMs = cfg.stabilityDurationMs)
    (hIc : hcfg.sampleIntervalMs = cfg.sampleIntervalMs)
    (r0 : Int) (t0 : Nat) (ps : List (Int × Nat)) (pl : Int × Nat)
    (hv0 : ReadingDebouncer.isValidReading cfg r0 = true)
    (hvs : ∀ p ∈ ps ++ [pl], ReadingDebouncer.isValidReading cfg p.1 = true)
    (ht0 : t0 < ulongW) (htW : ∀ p ∈ ps ++ [pl], p.2 < ulongW)
    (hchain : List.Chain
      (fun a b : Int × Nat =>
        |b.1 - a.1| ≤ cfg.tolerance ∧ a.2 + cfg.sampleIntervalMs ≤ b.2)
      (r0, t0) (ps ++ [pl])) :
    (ReadingDebouncer.update cfg ReadingDebouncer.initial r0 t0).isStable
        = false ∧
    (HeightDebouncer.update hcfg HeightDebouncer.initial r0 t0).isStable
        = false ∧
    ((ReadingDebouncer.feed cfg ReadingDebouncer.initial
        ((r0, t0) :: (ps ++ [pl]))).isStable
      = decide (cfg.stabilityDurationMs ≤ pl.2 - t0)) ∧
    (cfg.stabilityDurationMs ≤ pl.2 - t0 →
      ReadingDebouncer.getStableReading
        (ReadingDebouncer.feed cfg ReadingDebouncer.initial
          ((r0, t0) :: (ps ++ [pl]))) = pl.1) ∧
    ((HeightDebouncer.feed hcfg HeightDebouncer.initial
        ((r0, t0) :: (ps ++ [pl]))).isStable
      = decide (cfg.stabilityDurationMs ≤ pl.2 - t0)) ∧
    (cfg.stabilityDurationMs ≤ pl.2 - t0 →
      HeightDebouncer.getStableReading
        (HeightDebouncer.feed hcfg HeightDebouncer.initial
          ((r0, t0) :: (ps ++ [pl]))) = pl.1) := by
  have hb := rd_bootstrap cfg r0 t0 hv0 ht0
  have hfeed : ReadingDebouncer.feed cfg ReadingDebouncer.initial
      ((r0, t0) :: (ps ++ [pl]))
      = ReadingDebouncer.feed cfg
          (ReadingDebouncer.update cfg ReadingDebouncer.initial r0 t0)
          (ps ++ [pl]) := by
    simp [ReadingDebouncer.feed]
  have hrun := rd_tolerant_run cfg t0 ps pl
    (ReadingDebouncer.update cfg ReadingDebouncer.initial r0 t0) (r0, t0)
    (by rw [hb]) (by rw [hb]) (by rw [hb]) (by rw [hb])
    (by rw [hb]; intro hc; cases hc) (le_refl t0) hvs hchain htW
  have hvall : ∀ p ∈ (r0, t0) :: (ps ++ [pl]),
      ReadingDebouncer.isValidReading cfg p.1 = true := by
    intro p hp
    rcases List.mem_cons.mp hp with h | h
    · rw [h]; exact hv0
    · exact hvs p h
  have hsim := sim_feed cfg hcfg htolc hDc hIc ((r0, t0) :: (ps ++ [pl]))
    HeightDebouncer.initial ReadingDebouncer.initial sim_initial hvall
  refine ⟨?_, ?_, ?_, ?_, ?_, ?_⟩
  · rw [hb]
  · rw [hd_bootstrap hcfg r0 t0 ht0]
  · rw [hfeed]; exact hrun.1
  · intro hd
    have hst : (ReadingDebouncer.feed cfg ReadingDebouncer.initial
        ((r0, t0) :: (ps ++ [pl]))).isStable = true := by
      rw [hfeed, hrun.1]; simpa using hd
    unfold ReadingDebouncer.getStableReading
    rw [hst, if_pos rfl, hfeed]
    exact hrun.2 (by rw [← hfeed]; exact hst)
  · rw [hsim.2.2.2.1, hfeed]; exact hrun.1
  · intro hd
    have hgst : (ReadingDebouncer.feed cfg ReadingDebouncer.initial
        ((r0, t0) :: (ps ++ [pl]))).isStable = true := by
      rw [hfeed, hrun.1]; simpa using hd
    have hhst : (HeightDebouncer.feed hcfg HeightDebouncer.initial
        ((r0, t0) :: (ps ++ [pl]))).isStable = true := by
      rw [hsim.2.2.2.1]; exact hgst
    unfold HeightDebouncer.getStableReading
    rw [hhst, if_pos rfl, hsim.2.2.2.2.2 hhst, hfeed]
    exact hrun.2 (by rw [← hfeed]; exact hgst)

/-- Witness for claim C1, exercising both stream shapes the claim covers:
the spec scenario (constant reading 100 at t = 0, 200, …, 1000, tolerance
2, stability 1000, interval 100, range [0, 255] for the generic variant;
first stable at t = 1000 with stable reading 100), and the non-constant
pairwise within-tolerance stream 100, 101, 99, 101, 100, 101 at the same
timestamps, stable at t = 1000 with stable reading 101. -/
theorem claim_C1_stability_timing_witness :
    ((ReadingDebouncer.update (⟨2, 1000, 100, 0, 255⟩ : RDConfig)
        ReadingDebouncer.initial 100 0).isStable = false ∧
      (HeightDebouncer.update (⟨2, 1000, 100⟩ : HDConfig)
        HeightDebouncer.initial 100 0).isStable = false ∧
      ((ReadingDebouncer.feed (⟨2, 1000, 100, 0, 255⟩ : RDConfig)
          ReadingDebouncer.initial
          ((100, 0) :: ([(100, 200), (100, 400), (100, 600), (100, 800)]
            ++ [(100, 1000)]))).isStable
        = decide ((1000 : Nat) ≤ 1000 - 0)) ∧
      ((1000 : Nat) ≤ 1000 - 0 →
        ReadingDebouncer.getStableReading
          (ReadingDebouncer.feed (⟨2, 1000, 100, 0, 255⟩ : RDConfig)
            ReadingDebouncer.initial
            ((100, 0) :: ([(100, 200), (100, 400), (100, 600), (100, 800)]
              ++ [(100, 1000)]))) = 100) ∧
      ((HeightDebouncer.feed (⟨2, 1000, 100⟩ : HDConfig)
          HeightDebouncer.initial
          ((100, 0) :: ([(100, 200), (100, 400), (100, 600), (100, 800)]
            ++ [(100, 1000)]))).isStable
        = decide ((1000 : Nat) ≤ 1000 - 0)) ∧
      ((1000 : Nat) ≤ 1000 - 0 →
        HeightDebouncer.getStableReading
          (HeightDebouncer.feed (⟨2, 1000, 100⟩ : HDConfig)
            HeightDebouncer.initial
            ((100, 0) :: ([(100, 200), (100, 400), (100, 600), (100, 800)]
              ++ [(100, 1000)]))) = 100)) ∧
    ((ReadingDebouncer.update (⟨2, 1000, 100, 0, 255⟩ : RDConfig)
        ReadingDebouncer.initial 100 0).isStable = false ∧
      (HeightDebouncer.update (⟨2, 1000, 100⟩ : HDConfig)
        HeightDebouncer.initial 100 0).isStable = false ∧
      ((ReadingDebouncer.feed (⟨2, 1000, 100, 0, 255⟩ : RDConfig)
          ReadingDebouncer.initial
          ((100, 0) :: ([(101, 200), (99, 400), (101, 600), (100, 800)]
            ++ [(101, 1000)]))).isStable
        = decide ((1000 : Nat) ≤ 1000 - 0)) ∧
      ((1000 : Nat) ≤ 1000 - 0 →
        ReadingDebouncer.getStableReading
          (ReadingDebouncer.feed (⟨2, 1000, 100, 0, 255⟩ : RDConfig)
            ReadingDebouncer.initial
            ((100, 0) :: ([(101, 200), (99, 400), (101, 600), (100, 800)]
              ++ [(101, 1000)]))) = 101) ∧
      ((HeightDebouncer.feed (⟨2, 1000, 100⟩ : HDConfig)
          HeightDebouncer.initial
          ((100, 0) :: ([(101, 200), (99, 400), (101, 600), (100, 800)]
            ++ [(101, 1000)]))).isStable
        = decide ((1000 : Nat) ≤ 1000 - 0)) ∧
      ((1000 : Nat) ≤ 1000 - 0 →
        HeightDebouncer.getStableReading
          (HeightDebouncer.feed (⟨2, 1000, 100⟩ : HDConfig)
            HeightDebouncer.initial
            ((100, 0) :: ([(101, 200), (99, 400), (101, 600), (100, 800)]
              ++ [(101, 1000)]))) = 101)) :=
  ⟨claim_C1_stability_timing (⟨2, 1000, 100, 0, 255⟩ : RDConfig)
      (⟨2, 1000, 100⟩ : HDConfig) rfl rfl rfl 100 0
      [(100, 200), (100, 400), (100, 600), (100, 800)] (100, 1000)
      (by decide) (by decide) (by decide) (by decide)
      (by norm_num [List.chain_cons]),
    claim_C1_stability_timing (⟨2, 1000, 100, 0, 255⟩ : RDConfig)
      (⟨2, 1000, 100⟩ : HDConfig) rfl rfl rfl 100 0
      [(101, 200), (99, 400), (101, 600), (100, 800)] (101, 1000)
      (by decide) (by decide) (by decide) (by decide)
      (by norm_num [List.chain_cons])⟩

/-- Claim C2 counterexample: the claim quantifies over every prior state,
but an out-of-range reading submitted while the sample-interval gate is
closed is dropped before the validity gate runs.  With range [50, 100],
after accepting 98 at t = 0, the out-of-range reading 0 submitted at
t = 50 (closer than the 100 ms interval) leaves `hasValidReading()` true,
not false. -/
theorem claim_C2_range_rejection_cex :
    ReadingDebouncer.isValidReading (⟨2, 1000, 100, 50, 100⟩ : RDConfig) 0
        = false ∧
    ReadingDebouncer.hasValidReading
      (ReadingDebouncer.update (⟨2, 1000, 100, 50, 100⟩ : RDConfig)
        (ReadingDebouncer.update (⟨2, 1000, 100, 50, 100⟩ : RDConfig)
          ReadingDebouncer.initial 98 0) 0 50) = true := by
  exact ⟨by decide, by decide⟩

/-- Claim C2 amended: in a range-gated configuration, an update call that
passes the sample-interval gate (no reading accepted yet, or the gate
condition fails) whose reading is strictly below minValid or strictly
above maxValid immediately results in hasValidReading() = false and
isStable() = false, regardless of the state before the call; with range
[50, 100], feeding 0 then 40 from the fresh state leaves
hasValidReading() = false after each call, and a subsequent 98 becomes the
first accepted reading. -/
theorem claim_C2_range_rejection (cfg : RDConfig) (s : RDState) (r : Int)
    (t : Nat)
    (hout : r < cfg.minValid ∨ cfg.maxValid < r)
    (hgate : s.hasReading = false ∨
      ¬ usub (t % ulongW) s.lastSampleTime < cfg.sampleIntervalMs) :
    (ReadingDebouncer.hasValidReading (ReadingDebouncer.update cfg s r t)
        = false ∧
      (ReadingDebouncer.update cfg s r t).isStable = false) ∧
    (ReadingDebouncer.hasValidReading
        (ReadingDebouncer.feed (⟨2, 1000, 100, 50, 100⟩ : RDConfig)
          ReadingDebouncer.initial [(0, 0)]) = false ∧
      ReadingDebouncer.hasValidReading
        (ReadingDebouncer.feed (⟨2, 1000, 100, 50, 100⟩ : RDConfig)
          ReadingDebouncer.initial [(0, 0), (40, 100)]) = false ∧
      ReadingDebouncer.hasValidReading
        (ReadingDebouncer.feed (⟨2, 1000, 100, 50, 100⟩ : RDConfig)
          ReadingDebouncer.initial [(0, 0), (40, 100), (98, 200)]) = true ∧
      ReadingDebouncer.getLastReading
        (ReadingDebouncer.feed (⟨2, 1000, 100, 50, 100⟩ : RDConfig)
          ReadingDebouncer.initial [(0, 0), (40, 100), (98, 200)]) = 98) := by
  have hv : ReadingDebouncer.isValidReading cfg r = false := by
    simp only [ReadingDebouncer.isValidReading, Bool.and_eq_false_iff,
      decide_eq_false_iff_not, not_le, ge_iff_le]
    omega
  refine ⟨?_, by decide, by decide, by decide, by decide⟩
  rw [ReadingDebouncer.update_not_gated_eq cfg s r t hgate,
    ReadingDebouncer.processSample_invalid_eq cfg s r _ hv]
  exact ⟨rfl, rfl⟩

/-- Witness for the amended claim C2: with range [50, 100] and an accepted
reading at t = 0, the out-of-range reading 40 at t = 200 (past the gate)
clears `hasValidReading()` and `isStable()`. -/
theorem claim_C2_range_rejection_witness :
    (ReadingDebouncer.hasValidReading
        (ReadingDebouncer.update (⟨2, 1000, 100, 50, 100⟩ : RDConfig)
          (ReadingDebouncer.update (⟨2, 1000, 100, 50, 100⟩ : RDConfig)
            ReadingDebouncer.initial 98 0) 40 200) = false ∧
      (ReadingDebouncer.update (⟨2, 1000, 100, 50, 100⟩ : RDConfig)
        (ReadingDebouncer.update (⟨2, 1000, 100, 50, 100⟩ : RDConfig)
          ReadingDebouncer.initial 98 0) 40 200).isStable = false) ∧
    (ReadingDebouncer.hasValidReading
        (ReadingDebouncer.feed (⟨2, 1000, 100, 50, 100⟩ : RDConfig)
          ReadingDebouncer.initial [(0, 0)]) = false ∧
      ReadingDebouncer.hasValidReading
        (ReadingDebouncer.feed (⟨2, 1000, 100, 50, 100⟩ : RDConfig)
          ReadingDebouncer.initial [(0, 0), (40, 100)]) = false ∧
      ReadingDebouncer.hasValidReading
        (ReadingDebouncer.feed (⟨2, 1000, 100, 50, 100⟩ : RDConfig)
          ReadingDebouncer.initial [(0, 0), (40, 100), (98, 200)]) = true ∧
      ReadingDebouncer.getLastReading
        (ReadingDebouncer.feed (⟨2, 1000, 100, 50, 100⟩ : RDConfig)
          ReadingDebouncer.initial [(0, 0), (40, 100), (98, 200)]) = 98) :=
  claim_C2_range_rejection (⟨2, 1000, 100, 50, 100⟩ : RDConfig)
    (ReadingDebouncer.update (⟨2, 1000, 100, 50, 100⟩ : RDConfig)
      ReadingDebouncer.initial 98 0) 40 200
    (Or.inl (by decide)) (Or.inr (by decide))

/-- Claim C3 counterexample: the claim asserts that the lastSampleTime
bookkeeping of the rejected sample survives the reset, but `reset()` clears it to
zero.  With range [50, 100], accepting 98 at t = 0 and then submitting the
out-of-range 0 at t = 200 (past the gate) leaves `lastSampleTime` at 0,
not at the timestamp 200 of the call. -/
theorem claim_C3_invalid_reset_cex :
    (ReadingDebouncer.update (⟨2, 1000, 100, 50, 100⟩ : RDConfig)
        (ReadingDebouncer.update (⟨2, 1000, 100, 50, 100⟩ : RDConfig)
          ReadingDebouncer.initial 98 0) 0 200).lastSampleTime = 0 ∧
    ¬ (ReadingDebouncer.update (⟨2, 1000, 100, 50, 100⟩ : RDConfig)
        (ReadingDebouncer.update (⟨2, 1000, 100, 50, 100⟩ : RDConfig)
          ReadingDebouncer.initial 98 0) 0 200).lastSampleTime = 200 := by
  exact ⟨by decide, by decide⟩

/-- Claim C3 amended: in the range-gated variant, an update call with an
out-of-range reading that passes the interval gate sets lastReadingValid
to false and restores the entire mutable state, including the
`lastSampleTime` bookkeeping, to its initial values as by reset(); the
timestamp written for the rejected sample is overwritten by the reset
rather than preserved.  The call is a total state transition: no exception
or error code is produced. -/
theorem claim_C3_invalid_reading_resets (cfg : RDConfig) (s : RDState)
    (r : Int) (t : Nat)
    (hv : ReadingDebouncer.isValidReading cfg r = false)
    (hgate : s.hasReading = false ∨
      ¬ usub (t % ulongW) s.lastSampleTime < cfg.sampleIntervalMs) :
    ReadingDebouncer.update cfg s r t = ReadingDebouncer.resetState ∧
    ReadingDebouncer.isLastReadingValid (ReadingDebouncer.update cfg s r t)
        = false ∧
    (ReadingDebouncer.update cfg s r t).lastSampleTime = 0 := by
  have h := ReadingDebouncer.update_not_gated_eq cfg s r t hgate
  rw [h, ReadingDebouncer.processSample_invalid_eq cfg s r _ hv]
  exact ⟨rfl, rfl, rfl⟩

/-- Witness for the amended claim C3 at the configuration [50, 100],
reading 0 at t = 200 after an accepted 98 at t = 0. -/
theorem claim_C3_invalid_reading_resets_witness :
    ReadingDebouncer.update (⟨2, 1000, 100, 50, 100⟩ : RDConfig)
        (ReadingDebouncer.update (⟨2, 1000, 100, 50, 100⟩ : RDConfig)
          ReadingDebouncer.initial 98 0) 0 200 = ReadingDebouncer.resetState ∧
    ReadingDebouncer.isLastReadingValid
      (ReadingDebouncer.update (⟨2, 1000, 100, 50, 100⟩ : RDConfig)
        (ReadingDebouncer.update (⟨2, 1000, 100, 50, 100⟩ : RDConfig)
          ReadingDebouncer.initial 98 0) 0 200) = false ∧
    (ReadingDebouncer.update (⟨2, 1000, 100, 50, 100⟩ : RDConfig)
        (ReadingDebouncer.update (⟨2, 1000, 100, 50, 100⟩ : RDConfig)
          ReadingDebouncer.initial 98 0) 0 200).lastSampleTime = 0 :=
  claim_C3_invalid_reading_resets (⟨2, 1000, 100, 50, 100⟩ : RDConfig)
    (ReadingDebouncer.update (⟨2, 1000, 100, 50, 100⟩ : RDConfig)
      ReadingDebouncer.initial 98 0) 0 200
    (by decide) (Or.inr (by decide))

/-- Claim C4 counterexample: the claim asserts that a call dropped by the
sample-interval gate still records the validity of the sample into
lastReadingValid, but the early return of the gate precedes the validity
recording.  With range [50, 100], after accepting 98 at t = 0 (setting the
flag true), the out-of-range reading 0 submitted at t = 50 is dropped and
the flag remains true instead of becoming false. -/
theorem claim_C4_gated_validity_cex :
    ReadingDebouncer.isValidReading (⟨2, 1000, 100, 50, 100⟩ : RDConfig) 0
        = false ∧
    ReadingDebouncer.isLastReadingValid
      (ReadingDebouncer.update (⟨2, 1000, 100, 50, 100⟩ : RDConfig)
        (ReadingDebouncer.update (⟨2, 1000, 100, 50, 100⟩ : RDConfig)
          ReadingDebouncer.initial 98 0) 0 50) = true := by
  exact ⟨by decide, by decide⟩

/-- Claim C4 amended: in the range-gated (generic) variant, when an update
call is dropped by the sample-interval gate (hasReading true and the gate
condition holds), the call is a pure no-op: the whole state is unchanged,
and in particular the validity of the submitted sample is NOT recorded into the
lastReadingValid flag, which keeps its previous value. -/
theorem claim_C4_interval_gate_noop (cfg : RDConfig) (s : RDState) (r : Int)
    (t : Nat) (hr : s.hasReading = true)
    (hg : usub (t % ulongW) s.lastSampleTime < cfg.sampleIntervalMs) :
    ReadingDebouncer.update cfg s r t = s ∧
    ReadingDebouncer.isLastReadingValid (ReadingDebouncer.update cfg s r t)
        = s.lastReadingValid := by
  have h := ReadingDebouncer.update_gated_eq cfg s r t hr hg
  exact ⟨h, by rw [h]; rfl⟩

/-- Witness for the amended claim C4: the dropped out-of-range reading 0
at t = 50 leaves the state of the [50, 100] filter untouched. -/
theorem claim_C4_interval_gate_noop_witness :
    ReadingDebouncer.update (⟨2, 1000, 100, 50, 100⟩ : RDConfig)
        (ReadingDebouncer.update (⟨2, 1000, 100, 50, 100⟩ : RDConfig)
          ReadingDebouncer.initial 98 0) 0 50
      = ReadingDebouncer.update (⟨2, 1000, 100, 50, 100⟩ : RDConfig)
          ReadingDebouncer.initial 98 0 ∧
    ReadingDebouncer.isLastReadingValid
        (ReadingDebouncer.update (⟨2, 1000, 100, 50, 100⟩ : RDConfig)
          (ReadingDebouncer.update (⟨2, 1000, 100, 50, 100⟩ : RDConfig)
            ReadingDebouncer.initial 98 0) 0 50)
      = (ReadingDebouncer.update (⟨2, 1000, 100, 50, 100⟩ : RDConfig)
          ReadingDebouncer.initial 98 0).lastReadingValid :=
  claim_C4_interval_gate_noop (⟨2, 1000, 100, 50, 100⟩ : RDConfig)
    (ReadingDebouncer.update (⟨2, 1000, 100, 50, 100⟩ : RDConfig)
      ReadingDebouncer.initial 98 0) 0 50
    (by decide) (by decide)

/-- Claim C5 (sample-interval gating is a no-op): in both variants, from
any state with an accepted reading, an update call whose (non-wrapping)
timestamp is less than sampleInterval after the time of the last accepted
sample leaves the whole state, and in particular getLastReading() and
isStable(), exactly as after the previous call. -/
theorem claim_C5_interval_gate_drop (cfg : RDConfig) (hcfg : HDConfig)
    (g : RDState) (r : Int) (t : Nat)
    (hgr : g.hasReading = true) (hgt : g.lastSampleTime ≤ t)
    (hgW : t < ulongW) (hgI : t - g.lastSampleTime < cfg.sampleIntervalMs)
    (h : HDState) (rh : Int) (th : Nat)
    (hhr : h.hasReading = true) (hht : h.lastSampleTime ≤ th)
    (hhW : th < ulongW) (hhI : th - h.lastSampleTime < hcfg.sampleIntervalMs) :
    ReadingDebouncer.update cfg g r t = g ∧
    ReadingDebouncer.getLastReading (ReadingDebouncer.update cfg g r t)
        = ReadingDebouncer.getLastReading g ∧
    (ReadingDebouncer.update cfg g r t).isStable = g.isStable ∧
    HeightDebouncer.update hcfg h rh th = h ∧
    HeightDebouncer.getLastReading (HeightDebouncer.update hcfg h rh th)
        = HeightDebouncer.getLastReading h ∧
    (HeightDebouncer.update hcfg h rh th).isStable = h.isStable := by
  have hgu : ReadingDebouncer.update cfg g r t = g := by
    refine ReadingDebouncer.update_gated_eq cfg g r t hgr ?_
    rw [Nat.mod_eq_of_lt hgW, usub_eq_sub hgt hgW]
    exact hgI
  have hhu : HeightDebouncer.update hcfg h rh th = h := by
    refine HeightDebouncer.update_gated_hd hcfg h rh th hhr ?_
    rw [Nat.mod_eq_of_lt hhW, usub_eq_sub hht hhW]
    exact hhI
  exact ⟨hgu, by rw [hgu], by rw [hgu], hhu, by rw [hhu], by rw [hhu]⟩

/-- Witness for claim C5: after accepting 98 at t = 0 (interval 100), the
call at t = 50 is a no-op in both variants. -/
theorem claim_C5_interval_gate_drop_witness :
    ReadingDebouncer.update (⟨2, 1000, 100, 50, 100⟩ : RDConfig)
        (ReadingDebouncer.update (⟨2, 1000, 100, 50, 100⟩ : RDConfig)
          ReadingDebouncer.initial 98 0) 97 50
      = ReadingDebouncer.update (⟨2, 1000, 100, 50, 100⟩ : RDConfig)
          ReadingDebouncer.initial 98 0 ∧
    ReadingDebouncer.getLastReading
        (ReadingDebouncer.update (⟨2, 1000, 100, 50, 100⟩ : RDConfig)
          (ReadingDebouncer.update (⟨2, 1000, 100, 50, 100⟩ : RDConfig)
            ReadingDebouncer.initial 98 0) 97 50)
      = ReadingDebouncer.getLastReading
          (ReadingDebouncer.update (⟨2, 1000, 100, 50, 100⟩ : RDConfig)
            ReadingDebouncer.initial 98 0) ∧
    (ReadingDebouncer.update (⟨2, 1000, 100, 50, 100⟩ : RDConfig)
        (ReadingDebouncer.update (⟨2, 1000, 100, 50, 100⟩ : RDConfig)
          ReadingDebouncer.initial 98 0) 97 50).isStable
      = (ReadingDebouncer.update (⟨2, 1000, 100, 50, 100⟩ : RDConfig)
          ReadingDebouncer.initial 98 0).isStable ∧
    HeightDebouncer.update (⟨2, 1000, 100⟩ : HDConfig)
        (HeightDebouncer.update (⟨2, 1000, 100⟩ : HDConfig)
          HeightDebouncer.initial 98 0) 97 50
      = HeightDebouncer.update (⟨2, 1000, 100⟩ : HDConfig)
          HeightDebouncer.initial 98 0 ∧
    HeightDebouncer.getLastReading
        (HeightDebouncer.update (⟨2, 1000, 100⟩ : HDConfig)
          (HeightDebouncer.update (⟨2, 1000, 100⟩ : HDConfig)
            HeightDebouncer.initial 98 0) 97 50)
      = HeightDebouncer.getLastReading
          (HeightDebouncer.update (⟨2, 1000, 100⟩ : HDConfig)
            HeightDebouncer.initial 98 0) ∧
    (HeightDebouncer.update (⟨2, 1000, 100⟩ : HDConfig)
        (HeightDebouncer.update (⟨2, 1000, 100⟩ : HDConfig)
          HeightDebouncer.initial 98 0) 97 50).isStable
      = (HeightDebouncer.update (⟨2, 1000, 100⟩ : HDConfig)
          HeightDebouncer.initial 98 0).isStable :=
  claim_C5_interval_gate_drop (⟨2, 1000, 100, 50, 100⟩ : RDConfig)
    (⟨2, 1000, 100⟩ : HDConfig)
    (ReadingDebouncer.update (⟨2, 1000, 100, 50, 100⟩ : RDConfig)
      ReadingDebouncer.initial 98 0) 97 50
    (by decide) (by decide) (by decide) (by decide)
    (HeightDebouncer.update (⟨2, 1000, 100⟩ : HDConfig)
      HeightDebouncer.initial 98 0) 97 50
    (by decide) (by decide) (by decide) (by decide)

/-- Claim C6 (tolerance boundary): in both variants, an accepted reading
whose distance from the previous accepted reading is exactly the
configured tolerance continues the current stability run — the
stability-window start is unchanged — while an accepted reading at
tolerance + 1 breaks the run: the window restarts at the timestamp of the
call
and isStable becomes false. -/
theorem claim_C6_tolerance_boundary (cfg : RDConfig) (hcfg : HDConfig)
    (g : RDState) (r1 r2 : Int) (t1 t2 : Nat)
    (hgr : g.hasReading = true)
    (hgate1 : ¬ usub (t1 % ulongW) g.lastSampleTime < cfg.sampleIntervalMs)
    (hgate2 : ¬ usub (t2 % ulongW) g.lastSampleTime < cfg.sampleIntervalMs)
    (hv1 : ReadingDebouncer.isValidReading cfg r1 = true)
    (hv2 : ReadingDebouncer.isValidReading cfg r2 = true)
    (heq1 : |r1 - g.lastReading| = cfg.tolerance)
    (heq2 : |r2 - g.lastReading| = cfg.tolerance + 1)
    (h : HDState) (s1 s2 : Int) (u1 u2 : Nat)
    (hhr : h.hasReading = true)
    (hhg1 : ¬ usub (u1 % ulongW) h.lastSampleTime < hcfg.sampleIntervalMs)
    (hhg2 : ¬ usub (u2 % ulongW) h.lastSampleTime < hcfg.sampleIntervalMs)
    (hheq1 : |s1 - h.lastReading| = hcfg.toleranceCm)
    (hheq2 : |s2 - h.lastReading| = hcfg.toleranceCm + 1) :
    (ReadingDebouncer.update cfg g r1 t1).stabilityStartTime
        = g.stabilityStartTime ∧
    (ReadingDebouncer.update cfg g r2 t2).stabilityStartTime = t2 % ulongW ∧
    (ReadingDebouncer.update cfg g r2 t2).isStable = false ∧
    (HeightDebouncer.update hcfg h s1 u1).stabilityStartTime
        = h.stabilityStartTime ∧
    (HeightDebouncer.update hcfg h s2 u2).stabilityStartTime = u2 % ulongW ∧
    (HeightDebouncer.update hcfg h s2 u2).isStable = false := by
  have hw1 : ReadingDebouncer.isWithinTolerance cfg r1 g.lastReading = true := by
    rw [rd_within_iff_abs, heq1]; simp
  have hw2 : ReadingDebouncer.isWithinTolerance cfg r2 g.lastReading
      = false := by
    rw [rd_within_iff_abs, heq2]
    simp only [decide_eq_false_iff_not, not_le]
    omega
  have hhw1 : HeightDebouncer.isWithinTolerance hcfg s1 h.lastReading
      = true := by
    simp [HeightDebouncer.isWithinTolerance, hheq1]
  have hhw2 : HeightDebouncer.isWithinTolerance hcfg s2 h.lastReading
      = false := by
    simp only [HeightDebouncer.isWithinTolerance, hheq2,
      decide_eq_false_iff_not, not_le]
    omega
  refine ⟨?_, ?_, ?_, ?_, ?_, ?_⟩
  · rw [ReadingDebouncer.update_not_gated_eq cfg g r1 t1 (Or.inr hgate1)]
    by_cases hd : usub (t1 % ulongW) g.stabilityStartTime
        ≥ cfg.stabilityDurationMs
    · rw [ReadingDebouncer.processSample_within_stable_eq cfg g r1 _ hv1 hgr
        hw1 hd]
    · rw [ReadingDebouncer.processSample_within_early_eq cfg g r1 _ hv1 hgr
        hw1 hd]
  · rw [ReadingDebouncer.update_not_gated_eq cfg g r2 t2 (Or.inr hgate2),
      ReadingDebouncer.processSample_break_eq cfg g r2 _ hv2 hgr hw2]
  · rw [ReadingDebouncer.update_not_gated_eq cfg g r2 t2 (Or.inr hgate2),
      ReadingDebouncer.processSample_break_eq cfg g r2 _ hv2 hgr hw2]
  · rw [HeightDebouncer.update_not_gated_hd hcfg h s1 u1 (Or.inr hhg1)]
    by_cases hd : usub (u1 % ulongW) h.stabilityStartTime
        ≥ hcfg.stabilityDurationMs
    · rw [HeightDebouncer.processSample_within_stable_hd hcfg h s1 _ hhr hhw1 hd]
    · rw [HeightDebouncer.processSample_within_early_hd hcfg h s1 _ hhr hhw1 hd]
  · rw [HeightDebouncer.update_not_gated_hd hcfg h s2 u2 (Or.inr hhg2),
      HeightDebouncer.processSample_break_hd hcfg h s2 _ hhr hhw2]
  · rw [HeightDebouncer.update_not_gated_hd hcfg h s2 u2 (Or.inr hhg2),
      HeightDebouncer.processSample_break_hd hcfg h s2 _ hhr hhw2]

/-- Witness for claim C6: with tolerance 2 and an accepted reading 98 at
t = 0, the reading 100 at t = 200 (distance exactly 2) keeps the window
start, while the reading 95 at t = 200 (distance 3 = tolerance + 1)
restarts the window at 200 and clears stability, in both variants. -/
theorem claim_C6_tolerance_boundary_witness :
    (ReadingDebouncer.update (⟨2, 1000, 100, 50, 100⟩ : RDConfig)
        (ReadingDebouncer.update (⟨2, 1000, 100, 50, 100⟩ : RDConfig)
          ReadingDebouncer.initial 98 0) 100 200).stabilityStartTime
      = (ReadingDebouncer.update (⟨2, 1000, 100, 50, 100⟩ : RDConfig)
          ReadingDebouncer.initial 98 0).stabilityStartTime ∧
    (ReadingDebouncer.update (⟨2, 1000, 100, 50, 100⟩ : RDConfig)
        (ReadingDebouncer.update (⟨2, 1000, 100, 50, 100⟩ : RDConfig)
          ReadingDebouncer.initial 98 0) 95 200).stabilityStartTime
      = 200 % ulongW ∧
    (ReadingDebouncer.update (⟨2, 1000, 100, 50, 100⟩ : RDConfig)
        (ReadingDebouncer.update (⟨2, 1000, 100, 50, 100⟩ : RDConfig)
          ReadingDebouncer.initial 98 0) 95 200).isStable = false ∧
    (HeightDebouncer.update (⟨2, 1000, 100⟩ : HDConfig)
        (HeightDebouncer.update (⟨2, 1000, 100⟩ : HDConfig)
          HeightDebouncer.initial 98 0) 100 200).stabilityStartTime
      = (HeightDebouncer.update (⟨2, 1000, 100⟩ : HDConfig)
          HeightDebouncer.initial 98 0).stabilityStartTime ∧
    (HeightDebouncer.update (⟨2, 1000, 100⟩ : HDConfig)
        (HeightDebouncer.update (⟨2, 1000, 100⟩ : HDConfig)
          HeightDebouncer.initial 98 0) 95 200).stabilityStartTime
      = 200 % ulongW ∧
    (HeightDebouncer.update (⟨2, 1000, 100⟩ : HDConfig)
        (HeightDebouncer.update (⟨2, 1000, 100⟩ : HDConfig)
          HeightDebouncer.initial 98 0) 95 200).isStable = false :=
  claim_C6_tolerance_boundary (⟨2, 1000, 100, 50, 100⟩ : RDConfig)
    (⟨2, 1000, 100⟩ : HDConfig)
    (ReadingDebouncer.update (⟨2, 1000, 100, 50, 100⟩ : RDConfig)
      ReadingDebouncer.initial 98 0) 100 95 200 200
    (by decide) (by decide) (by decide) (by decide) (by decide)
    (by decide) (by decide)
    (HeightDebouncer.update (⟨2, 1000, 100⟩ : HDConfig)
      HeightDebouncer.initial 98 0) 100 95 200 200
    (by decide) (by decide) (by decide) (by decide) (by decide)

/-- Claim C7 (run-break frame condition): in both variants, when an
accepted reading differs from the last reading by more than the tolerance,
the update call clears isStable and restarts the stability window at the
timestamp of the call, but leaves the stored stableReading field unchanged;
independently, the stable-value accessor returns the sentinel (0, the
default of int, for the generic variant and -1 for the integer one)
whenever the stable flag is false. -/
theorem claim_C7_runbreak_frame (cfg : RDConfig) (hcfg : HDConfig)
    (g : RDState) (r : Int) (t : Nat)
    (hgr : g.hasReading = true)
    (hgate : ¬ usub (t % ulongW) g.lastSampleTime < cfg.sampleIntervalMs)
    (hv : ReadingDebouncer.isValidReading cfg r = true)
    (hbreak : cfg.tolerance < |r - g.lastReading|)
    (h : HDState) (rh : Int) (th : Nat)
    (hhr : h.hasReading = true)
    (hhgate : ¬ usub (th % ulongW) h.lastSampleTime < hcfg.sampleIntervalMs)
    (hhbreak : hcfg.toleranceCm < |rh - h.lastReading|)
    (g2 : RDState) (hg2 : g2.isStable = false)
    (h2 : HDState) (hh2 : h2.isStable = false) :
    (ReadingDebouncer.update cfg g r t).isStable = false ∧
    (ReadingDebouncer.update cfg g r t).stabilityStartTime = t % ulongW ∧
    (ReadingDebouncer.update cfg g r t).stableReading = g.stableReading ∧
    (HeightDebouncer.update hcfg h rh th).isStable = false ∧
    (HeightDebouncer.update hcfg h rh th).stabilityStartTime = th % ulongW ∧
    (HeightDebouncer.update hcfg h rh th).stableReading = h.stableReading ∧
    ReadingDebouncer.getStableReading g2 = 0 ∧
    HeightDebouncer.getStableReading h2 = -1 := by
  have hw : ReadingDebouncer.isWithinTolerance cfg r g.lastReading = false := by
    rw [rd_within_iff_abs]
    simp only [decide_eq_false_iff_not, not_le]
    exact hbreak
  have hhw : HeightDebouncer.isWithinTolerance hcfg rh h.lastReading
      = false := by
    simp only [HeightDebouncer.isWithinTolerance, decide_eq_false_iff_not,
      not_le]
    exact hhbreak
  have hgu := ReadingDebouncer.update_not_gated_eq cfg g r t (Or.inr hgate)
  have hhu := HeightDebouncer.update_not_gated_hd hcfg h rh th (Or.inr hhgate)
  refine ⟨?_, ?_, ?_, ?_, ?_, ?_, ?_, ?_⟩
  · rw [hgu, ReadingDebouncer.processSample_break_eq cfg g r _ hv hgr hw]
  · rw [hgu, ReadingDebouncer.processSample_break_eq cfg g r _ hv hgr hw]
  · rw [hgu, ReadingDebouncer.processSample_break_eq cfg g r _ hv hgr hw]
  · rw [hhu, HeightDebouncer.processSample_break_hd hcfg h rh _ hhr hhw]
  · rw [hhu, HeightDebouncer.processSample_break_hd hcfg h rh _ hhr hhw]
  · rw [hhu, HeightDebouncer.processSample_break_hd hcfg h rh _ hhr hhw]
  · unfold ReadingDebouncer.getStableReading
    rw [hg2]
    rfl
  · unfold HeightDebouncer.getStableReading
    rw [hh2]
    rfl

/-- Witness for claim C7: a stable run at 98 (established at t = 1000) is
broken by the reading 60 at t = 1100; the stored stableReading field
retains 98 while the accessor reports the sentinel. -/
theorem claim_C7_runbreak_frame_witness :
    (ReadingDebouncer.update (⟨2, 1000, 100, 50, 100⟩ : RDConfig)
        (ReadingDebouncer.feed (⟨2, 1000, 100, 50, 100⟩ : RDConfig)
          ReadingDebouncer.initial [(98, 0), (98, 1000)]) 60 1100).isStable
      = false ∧
    (ReadingDebouncer.update (⟨2, 1000, 100, 50, 100⟩ : RDConfig)
        (ReadingDebouncer.feed (⟨2, 1000, 100, 50, 100⟩ : RDConfig)
          ReadingDebouncer.initial [(98, 0), (98, 1000)]) 60
        1100).stabilityStartTime = 1100 % ulongW ∧
    (ReadingDebouncer.update (⟨2, 1000, 100, 50, 100⟩ : RDConfig)
        (ReadingDebouncer.feed (⟨2, 1000, 100, 50, 100⟩ : RDConfig)
          ReadingDebouncer.initial [(98, 0), (98, 1000)]) 60
        1100).stableReading
      = (ReadingDebouncer.feed (⟨2, 1000, 100, 50, 100⟩ : RDConfig)
          ReadingDebouncer.initial [(98, 0), (98, 1000)]).stableReading ∧
    (HeightDebouncer.update (⟨2, 1000, 100⟩ : HDConfig)
        (HeightDebouncer.feed (⟨2, 1000, 100⟩ : HDConfig)
          HeightDebouncer.initial [(98, 0), (98, 1000)]) 60 1100).isStable
      = false ∧
    (HeightDebouncer.update (⟨2, 1000, 100⟩ : HDConfig)
        (HeightDebouncer.feed (⟨2, 1000, 100⟩ : HDConfig)
          HeightDebouncer.initial [(98, 0), (98, 1000)]) 60
        1100).stabilityStartTime = 1100 % ulongW ∧
    (HeightDebouncer.update (⟨2, 1000, 100⟩ : HDConfig)
        (HeightDebouncer.feed (⟨2, 1000, 100⟩ : HDConfig)
          HeightDebouncer.initial [(98, 0), (98, 1000)]) 60
        1100).stableReading
      = (HeightDebouncer.feed (⟨2, 1000, 100⟩ : HDConfig)
          HeightDebouncer.initial [(98, 0), (98, 1000)]).stableReading ∧
    ReadingDebouncer.getStableReading
        (ReadingDebouncer.update (⟨2, 1000, 100, 50, 100⟩ : RDConfig)
          (ReadingDebouncer.feed (⟨2, 1000, 100, 50, 100⟩ : RDConfig)
            ReadingDebouncer.initial [(98, 0), (98, 1000)]) 60 1100) = 0 ∧
    HeightDebouncer.getStableReading
        (HeightDebouncer.update (⟨2, 1000, 100⟩ : HDConfig)
          (HeightDebouncer.feed (⟨2, 1000, 100⟩ : HDConfig)
            HeightDebouncer.initial [(98, 0), (98, 1000)]) 60 1100) = -1 :=
  claim_C7_runbreak_frame (⟨2, 1000, 100, 50, 100⟩ : RDConfig)
    (⟨2, 1000, 100⟩ : HDConfig)
    (ReadingDebouncer.feed (⟨2, 1000, 100, 50, 100⟩ : RDConfig)
      ReadingDebouncer.initial [(98, 0), (98, 1000)]) 60 1100
    (by decide) (by decide) (by decide) (by decide)
    (HeightDebouncer.feed (⟨2, 1000, 100⟩ : HDConfig)
      HeightDebouncer.initial [(98, 0), (98, 1000)]) 60 1100
    (by decide) (by decide) (by decide)
    (ReadingDebouncer.update (⟨2, 1000, 100, 50, 100⟩ : RDConfig)
      (ReadingDebouncer.feed (⟨2, 1000, 100, 50, 100⟩ : RDConfig)
        ReadingDebouncer.initial [(98, 0), (98, 1000)]) 60 1100)
    (by decide)
    (HeightDebouncer.update (⟨2, 1000, 100⟩ : HDConfig)
      (HeightDebouncer.feed (⟨2, 1000, 100⟩ : HDConfig)
        HeightDebouncer.initial [(98, 0), (98, 1000)]) 60 1100)
    (by decide)

/-- Every `HeightDebouncer::update` call that reaches the body past the
gate leaves a state with an accepted reading. -/
theorem hd_processSample_hasReading (cfg : HDConfig) (s : HDState) (r : Int)
    (tm : Nat) : (HeightDebouncer.processSample cfg s r tm).hasReading
      = true := by
  by_cases hr : s.hasReading = true
  · by_cases hw : HeightDebouncer.isWithinTolerance cfg r s.lastReading = true
    · by_cases hd : usub tm s.stabilityStartTime ≥ cfg.stabilityDurationMs
      · rw [HeightDebouncer.processSample_within_stable_hd cfg s r tm hr hw hd]
      · rw [HeightDebouncer.processSample_within_early_hd cfg s r tm hr hw hd]
    · rw [HeightDebouncer.processSample_break_hd cfg s r tm hr
        (by simpa using hw)]
  · rw [HeightDebouncer.processSample_first_hd cfg s r tm (by simpa using hr)]

/-- One generic `update` call preserves the invariant that a set stable
flag entails an accepted reading. -/
theorem rd_step_stable_hasReading (cfg : RDConfig) (s : RDState) (r : Int)
    (t : Nat) (ih : s.isStable = true → s.hasReading = true) :
    (ReadingDebouncer.update cfg s r t).isStable = true →
    (ReadingDebouncer.update cfg s r t).hasReading = true := by
  by_cases hr : s.hasReading = true
  · by_cases hgt : usub (t % ulongW) s.lastSampleTime < cfg.sampleIntervalMs
    · rw [ReadingDebouncer.update_gated_eq cfg s r t hr hgt]
      exact ih
    · rw [ReadingDebouncer.update_not_gated_eq cfg s r t (Or.inr hgt)]
      by_cases hv : ReadingDebouncer.isValidReading cfg r = true
      · intro _
        exact rd_processSample_hasReading cfg s r _ hv
      · rw [ReadingDebouncer.processSample_invalid_eq cfg s r _
          (by simpa using hv)]
        intro hc
        exact absurd hc (by decide)
  · rw [ReadingDebouncer.update_not_gated_eq cfg s r t
      (Or.inl (by simpa using hr))]
    by_cases hv : ReadingDebouncer.isValidReading cfg r = true
    · intro _
      exact rd_processSample_hasReading cfg s r _ hv
    · rw [ReadingDebouncer.processSample_invalid_eq cfg s r _ (by simpa using hv)]
      intro hc
      exact absurd hc (by decide)

/-- One integer-variant `update` call preserves the invariant that a set
stable flag entails an accepted reading. -/
theorem hd_step_stable_hasReading (cfg : HDConfig) (s : HDState) (r : Int)
    (t : Nat) (ih : s.isStable = true → s.hasReading = true) :
    (HeightDebouncer.update cfg s r t).isStable = true →
    (HeightDebouncer.update cfg s r t).hasReading = true := by
  by_cases hr : s.hasReading = true
  · by_cases hgt : usub (t % ulongW) s.lastSampleTime < cfg.sampleIntervalMs
    · rw [HeightDebouncer.update_gated_hd cfg s r t hr hgt]
      exact ih
    · rw [HeightDebouncer.update_not_gated_hd cfg s r t (Or.inr hgt)]
      intro _
      exact hd_processSample_hasReading cfg s r _
  · rw [HeightDebouncer.update_not_gated_hd cfg s r t
      (Or.inl (by simpa using hr))]
    intro _
    exact hd_processSample_hasReading cfg s r _

/-- In every reachable generic-variant state, a set stable flag entails an
accepted reading. -/
theorem rd_reachable_stable_hasReading (cfg : RDConfig) {s : RDState}
    (hreach : RDReachable cfg s) : s.isStable = true → s.hasReading = true := by
  induction hreach with
  | init => intro hc; exact absurd hc (by decide)
  | step s r t _ ih => exact rd_step_stable_hasReading cfg s r t ih
  | reset s _ _ => intro hc; exact absurd hc (by decide)

/-- In every reachable integer-variant state, a set stable flag entails an
accepted reading. -/
theorem hd_reachable_stable_hasReading (cfg : HDConfig) {s : HDState}
    (hreach : HDReachable cfg s) : s.isStable = true → s.hasReading = true := by
  induction hreach with
  | init => intro hc; exact absurd hc (by decide)
  | step s r t _ ih => exact hd_step_stable_hasReading cfg s r t ih
  | reset s _ _ => intro hc; exact absurd hc (by decide)

/-- Claim C8 (state invariant): in every state reachable from the freshly
constructed state by any sequence of update and reset calls, isStable
implies hasReading — a set stable flag is only ever observed after at
least one reading has been accepted, in both variants. -/
theorem claim_C8_stable_implies_hasReading (cfg : RDConfig) (g : RDState)
    (hreach : RDReachable cfg g) (hgs : g.isStable = true)
    (hcfg : HDConfig) (h : HDState) (hhreach : HDReachable hcfg h)
    (hhs : h.isStable = true) :
    g.hasReading = true ∧ h.hasReading = true :=
  ⟨rd_reachable_stable_hasReading cfg hreach hgs,
    hd_reachable_stable_hasReading hcfg hhreach hhs⟩

/-- Witness for claim C8: the state reached by accepting 98 at t = 0 and
t = 1000 is stable in both variants, and indeed has a reading. -/
theorem claim_C8_stable_implies_hasReading_witness :
    (ReadingDebouncer.update (⟨2, 1000, 100, 50, 100⟩ : RDConfig)
        (ReadingDebouncer.update (⟨2, 1000, 100, 50, 100⟩ : RDConfig)
          ReadingDebouncer.initial 98 0) 98 1000).hasReading = true ∧
    (HeightDebouncer.update (⟨2, 1000, 100⟩ : HDConfig)
        (HeightDebouncer.update (⟨2, 1000, 100⟩ : HDConfig)
          HeightDebouncer.initial 98 0) 98 1000).hasReading = true :=
  claim_C8_stable_implies_hasReading (⟨2, 1000, 100, 50, 100⟩ : RDConfig) _
    (RDReachable.step _ 98 1000 (RDReachable.step _ 98 0 RDReachable.init))
    (by decide)
    (⟨2, 1000, 100⟩ : HDConfig) _
    (HDReachable.step _ 98 1000 (HDReachable.step _ 98 0 HDReachable.init))
    (by decide)

/-- Claim C9 (variant equivalence): for every non-empty sample sequence
with non-decreasing timestamps whose readings all lie within
[minValid, maxValid], feeding the sequence to a HeightDebouncer and to a
ReadingDebouncer built with the same tolerance, stability duration and
sample interval yields the same isStable() and the same getLastReading(),
and the same getStableReading() whenever isStable() is true (the
not-stable sentinels differ: -1 versus 0).  Instantiating the statement at
every prefix extends the agreement to the state after each call. -/
theorem claim_C9_variant_equivalence (cfg : RDConfig) (hcfg : HDConfig)
    (htol : hcfg.toleranceCm = cfg.tolerance)
    (hD : hcfg.stabilityDurationMs = cfg.stabilityDurationMs)
    (hI : hcfg.sampleIntervalMs = cfg.sampleIntervalMs)
    (samples : List (Int × Nat)) (hne : samples ≠ [])
    (hvalid : ∀ p ∈ samples, cfg.minValid ≤ p.1 ∧ p.1 ≤ cfg.maxValid)
    (_hmono : List.Chain' (fun p q : Int × Nat => p.2 ≤ q.2) samples) :
    (HeightDebouncer.feed hcfg HeightDebouncer.initial samples).isStable
      = (ReadingDebouncer.feed cfg ReadingDebouncer.initial samples).isStable ∧
    HeightDebouncer.getLastReading
        (HeightDebouncer.feed hcfg HeightDebouncer.initial samples)
      = ReadingDebouncer.getLastReading
          (ReadingDebouncer.feed cfg ReadingDebouncer.initial samples) ∧
    ((ReadingDebouncer.feed cfg ReadingDebouncer.initial samples).isStable
        = true →
      HeightDebouncer.getStableReading
          (HeightDebouncer.feed hcfg HeightDebouncer.initial samples)
        = ReadingDebouncer.getStableReading
            (ReadingDebouncer.feed cfg ReadingDebouncer.initial samples)) := by
  have hv : ∀ p ∈ samples, ReadingDebouncer.isValidReading cfg p.1 = true := by
    intro p hp
    have hb := hvalid p hp
    simp only [ReadingDebouncer.isValidReading, Bool.and_eq_true,
      decide_eq_true_eq, ge_iff_le]
    exact ⟨hb.1, hb.2⟩
  obtain ⟨s1, s2, s3, s4, s5, s6⟩ :=
    sim_feed cfg hcfg htol hD hI samples HeightDebouncer.initial
      ReadingDebouncer.initial sim_initial hv
  have hgr := rd_feed_hasReading cfg samples ReadingDebouncer.initial hne hv
  have hhr : (HeightDebouncer.feed hcfg HeightDebouncer.initial
      samples).hasReading = true := s5.trans hgr
  refine ⟨s4, s1 hhr, ?_⟩
  intro hst
  have hhst : (HeightDebouncer.feed hcfg HeightDebouncer.initial
      samples).isStable = true := s4.trans hst
  unfold HeightDebouncer.getStableReading ReadingDebouncer.getStableReading
  rw [hhst, hst]
  simpa using s6 hhst

/-- Witness for claim C9: the stream 98 at t = 0 then 98 at t = 1000, fed
to both variants configured with tolerance 2, stability 1000, interval 100
and range [50, 100] for the generic one. -/
theorem claim_C9_variant_equivalence_witness :
    (HeightDebouncer.feed (⟨2, 1000, 100⟩ : HDConfig) HeightDebouncer.initial
        [(98, 0), (98, 1000)]).isStable
      = (ReadingDebouncer.feed (⟨2, 1000, 100, 50, 100⟩ : RDConfig)
          ReadingDebouncer.initial [(98, 0), (98, 1000)]).isStable ∧
    HeightDebouncer.getLastReading
        (HeightDebouncer.feed (⟨2, 1000, 100⟩ : HDConfig)
          HeightDebouncer.initial [(98, 0), (98, 1000)])
      = ReadingDebouncer.getLastReading
          (ReadingDebouncer.feed (⟨2, 1000, 100, 50, 100⟩ : RDConfig)
            ReadingDebouncer.initial [(98, 0), (98, 1000)]) ∧
    ((ReadingDebouncer.feed (⟨2, 1000, 100, 50, 100⟩ : RDConfig)
          ReadingDebouncer.initial [(98, 0), (98, 1000)]).isStable = true →
      HeightDebouncer.getStableReading
          (HeightDebouncer.feed (⟨2, 1000, 100⟩ : HDConfig)
            HeightDebouncer.initial [(98, 0), (98, 1000)])
        = ReadingDebouncer.getStableReading
            (ReadingDebouncer.feed (⟨2, 1000, 100, 50, 100⟩ : RDConfig)
              ReadingDebouncer.initial [(98, 0), (98, 1000)])) :=
  claim_C9_variant_equivalence (⟨2, 1000, 100, 50, 100⟩ : RDConfig)
    (⟨2, 1000, 100⟩ : HDConfig) rfl rfl rfl [(98, 0), (98, 1000)]
    (by decide) (by decide) (by simp [List.chain'_cons])

/-- Claim C10 (implicit, gate needs a reading): the sample-interval gate
applies only when a reading has already been accepted; from any state with
hasReading false — freshly constructed, after reset(), or immediately
after a processed out-of-range reading in the range-gated variant — the
next update call is always processed (it reaches the body past the gate),
no matter how close its timestamp is to that of the previous call. -/
theorem claim_C10_gate_needs_reading (cfg : RDConfig) (g : RDState) (r : Int)
    (t : Nat) (hg : g.hasReading = false)
    (hcfg : HDConfig) (h : HDState) (rh : Int) (th : Nat)
    (hh : h.hasReading = false)
    (s2 : RDState) (r2 : Int) (t2 : Nat)
    (hv2 : ReadingDebouncer.isValidReading cfg r2 = false)
    (hgate2 : s2.hasReading = false ∨
      ¬ usub (t2 % ulongW) s2.lastSampleTime < cfg.sampleIntervalMs) :
    ReadingDebouncer.update cfg g r t
        = ReadingDebouncer.processSample cfg g r (t % ulongW) ∧
    HeightDebouncer.update hcfg h rh th
        = HeightDebouncer.processSample hcfg h rh (th % ulongW) ∧
    ReadingDebouncer.initial.hasReading = false ∧
    ReadingDebouncer.resetState.hasReading = false ∧
    HeightDebouncer.initial.hasReading = false ∧
    HeightDebouncer.resetState.hasReading = false ∧
    (ReadingDebouncer.update cfg s2 r2 t2).hasReading = false := by
  refine ⟨ReadingDebouncer.update_not_gated_eq cfg g r t (Or.inl hg),
    HeightDebouncer.update_not_gated_hd hcfg h rh th (Or.inl hh),
    rfl, rfl, rfl, rfl, ?_⟩
  rw [ReadingDebouncer.update_not_gated_eq cfg s2 r2 t2 hgate2,
    ReadingDebouncer.processSample_invalid_eq cfg s2 r2 _ hv2]
  rfl

/-- Witness for claim C10: a reset generic filter and a fresh integer
filter both process an update only 1 ms after time zero, and the state
right after a processed out-of-range reading has no accepted reading. -/
theorem claim_C10_gate_needs_reading_witness :
    ReadingDebouncer.update (⟨2, 1000, 100, 50, 100⟩ : RDConfig)
        ReadingDebouncer.resetState 98 1
      = ReadingDebouncer.processSample (⟨2, 1000, 100, 50, 100⟩ : RDConfig)
          ReadingDebouncer.resetState 98 (1 % ulongW) ∧
    HeightDebouncer.update (⟨2, 1000, 100⟩ : HDConfig)
        HeightDebouncer.initial 98 1
      = HeightDebouncer.processSample (⟨2, 1000, 100⟩ : HDConfig)
          HeightDebouncer.initial 98 (1 % ulongW) ∧
    ReadingDebouncer.initial.hasReading = false ∧
    ReadingDebouncer.resetState.hasReading = false ∧
    HeightDebouncer.initial.hasReading = false ∧
    HeightDebouncer.resetState.hasReading = false ∧
    (ReadingDebouncer.update (⟨2, 1000, 100, 50, 100⟩ : RDConfig)
        (ReadingDebouncer.update (⟨2, 1000, 100, 50, 100⟩ : RDConfig)
          ReadingDebouncer.initial 98 0) 0 200).hasReading = false :=
  claim_C10_gate_needs_reading (⟨2, 1000, 100, 50, 100⟩ : RDConfig)
    ReadingDebouncer.resetState 98 1 (by decide)
    (⟨2, 1000, 100⟩ : HDConfig) HeightDebouncer.initial 98 1 (by decide)
    (ReadingDebouncer.update (⟨2, 1000, 100, 50, 100⟩ : RDConfig)
      ReadingDebouncer.initial 98 0) 0 200
    (by decide) (Or.inr (by decide))

end Apptech
